import Mathlib

/-!
# Verification of the synthetic-transaction dataset pipeline

Shallow embedding of `generate_dataset.py` (the dataset generator) and of the
filter/aggregation core of `app.py` (the dashboard server), together with
theorems settling the frozen claims about them.

Modelling conventions:

* Python/numpy floating-point arithmetic is modelled over `ℚ`; `np.round(x, 2)`
  is modelled by `round2` (round to an integer number of cents, divide by 100).
* The numpy `PCG64` bit stream produced by `np.random.default_rng(seed)` is
  abstracted by a deterministic pseudo-random stream `mix seed col i` (one
  stream position per column and row).  Every claim proved below depends only
  on (a) the stream being a deterministic function of the seed and (b) the
  support of each draw and the arithmetic transformations applied to it, all of
  which are taken verbatim from the source; no claim depends on the concrete
  bit values.
* `rng.integers(..., size=k)` with a negative `k` raises numpy's
  `ValueError: negative dimensions are not allowed`; the generator is therefore
  embedded as an `Except String` computation.  All sampling calls in
  `generate_dataset` share the single size `num_rows`, so the embedding guards
  once at the first sampling call.
* pandas currency/percentage formatting (`"${:,.2f}".format` etc.) is
  presentation, applied after the numeric aggregation; views are embedded as
  the numeric tables they format.
-/

/-- `np.round(x, 2)`: round to two decimal places (cents). -/
def round2 (x : ℚ) : ℚ := ((round (x * 100) : ℤ) : ℚ) / 100

/-! ## Constants of `generate_dataset.py` (lines 23-63) -/

def CATEGORIES : List String :=
  ["Electronics", "Clothing", "Home & Garden", "Sports & Outdoors", "Books",
   "Toys & Games", "Health & Beauty", "Automotive", "Grocery", "Pet Supplies",
   "Office Supplies", "Music & Movies", "Jewelry", "Baby Products",
   "Tools & Hardware"]

def PAYMENT_METHODS : List String :=
  ["Credit Card", "Debit Card", "PayPal", "Apple Pay", "Google Pay",
   "Gift Card", "Wire Transfer"]

def REGIONS : List String :=
  ["Northeast", "Southeast", "Midwest", "Southwest", "West Coast",
   "Northwest", "Mid-Atlantic", "Great Plains"]

def STATUSES : List String :=
  ["Completed", "Pending", "Shipped", "Cancelled", "Returned", "Refunded"]

def CITIES : List String :=
  ["New York", "Los Angeles", "Chicago", "Houston", "Phoenix",
   "Philadelphia", "San Antonio", "San Diego", "Dallas", "San Jose",
   "Austin", "Jacksonville", "Fort Worth", "Columbus", "Charlotte",
   "Indianapolis", "San Francisco", "Seattle", "Denver", "Nashville",
   "Portland", "Las Vegas", "Memphis", "Louisville", "Baltimore",
   "Milwaukee", "Albuquerque", "Tucson", "Fresno", "Sacramento"]

/-- `rng.choice([0, 0, 0, 0.05, 0.1, 0.15, 0.2, 0.25])` support (line 81);
the three zero entries carry the weighting toward undiscounted rows. -/
def DISCOUNT_CHOICES : List ℚ := [0, 0, 0, 5/100, 10/100, 15/100, 20/100, 25/100]

/-- `rng.choice([0.0, 0.05, 0.06, 0.07, 0.075, 0.08, 0.0825, 0.1])` (line 83). -/
def TAX_RATE_CHOICES : List ℚ :=
  [0, 5/100, 6/100, 7/100, 75/1000, 8/100, 825/10000, 10/100]

/-! ## Abstract deterministic random stream (stands in for numpy PCG64) -/

/-- One multiplicative-congruential step. -/
def lcgStep (x : ℕ) : ℕ := (x * 75 + 74) % 65537

/-- Deterministic stream value at column `col`, row `i`, for a given seed.
Abstracts the PCG64 stream consumed column-by-column by the source. -/
def mix (seed : ℤ) (col i : ℕ) : ℕ :=
  lcgStep (lcgStep (seed.natAbs % 65537 + 101 * col) + 7919 * i % 65537)

/-! ## Per-row draws and derived financial fields (lines 71-85)

The source computes whole columns at once; the embedding gives the entry of
each column at row index `i`.  Column order follows the source. -/

/-- `pd.Timestamp("2024-01-01")` as a Unix epoch second count. -/
def START_EPOCH : ℤ := 1704067200

/-- `int((end_ts - start_ts).total_seconds())`: 730 days (line 74). -/
def TOTAL_SECONDS : ℤ := 63072000

/-- `rng.integers(0, total_seconds)` draw at row `i` (line 75). -/
def randomSecondsAt (seed : ℤ) (i : ℕ) : ℤ := (mix seed 0 i : ℤ) % TOTAL_SECONDS

/-- `rng.exponential(scale=50)` draw at row `i`: a non-negative rational,
abstracting the exponential deviate (line 79). -/
def expDrawAt (seed : ℤ) (i : ℕ) : ℚ := 50 * (mix seed 1 i % 997 : ℕ) / 100

/-- `np.round(rng.exponential(scale=50) + 0.99, 2)` (line 79). -/
def unitPriceAt (seed : ℤ) (i : ℕ) : ℚ := round2 (expDrawAt seed i + 99/100)

/-- `rng.integers(1, 21)` (line 80). -/
def quantityAt (seed : ℤ) (i : ℕ) : ℤ := 1 + (mix seed 2 i : ℤ) % 20

/-- `np.round(rng.choice([0, 0, 0, 0.05, 0.1, 0.15, 0.2, 0.25]), 2)` (line 81). -/
def discountAt (seed : ℤ) (i : ℕ) : ℚ :=
  round2 (DISCOUNT_CHOICES.getD (mix seed 3 i % 8) 0)

/-- `np.round(unit_prices * quantities * (1 - discounts), 2)` (line 82). -/
def subtotalAt (seed : ℤ) (i : ℕ) : ℚ :=
  round2 (unitPriceAt seed i * (quantityAt seed i : ℚ) * (1 - discountAt seed i))

/-- `rng.choice([0.0, 0.05, 0.06, 0.07, 0.075, 0.08, 0.0825, 0.1])` (line 83). -/
def taxRateAt (seed : ℤ) (i : ℕ) : ℚ :=
  TAX_RATE_CHOICES.getD (mix seed 4 i % 8) 0

/-- `np.round(subtotals * tax_rates, 2)` (line 84). -/
def taxAt (seed : ℤ) (i : ℕ) : ℚ := round2 (subtotalAt seed i * taxRateAt seed i)

/-- `np.round(subtotals + taxes, 2)` (line 85). -/
def totalAt (seed : ℤ) (i : ℕ) : ℚ := round2 (subtotalAt seed i + taxAt seed i)

/-! ## The transaction row (DataFrame columns, lines 88-109) -/

structure Row where
  transaction_id : ℤ
  timestamp : ℤ            -- Unix epoch seconds
  customer_id : ℤ
  category : String
  product_id : ℤ
  unit_price : ℚ
  quantity : ℤ
  discount : ℚ
  subtotal : ℚ
  tax_rate : ℚ
  tax : ℚ
  total : ℚ
  payment_method : String
  region : String
  city : String
  status : String
  is_member : Bool
  rating : Option ℤ
  deriving DecidableEq, Repr

/-- Row `i` (0-based) of the generated DataFrame: each field is the entry of
the corresponding column (`transaction_id = np.arange(1, n+1)` is `i + 1`). -/
def rowAt (seed : ℤ) (i : ℕ) : Row where
  transaction_id := (i : ℤ) + 1
  timestamp := START_EPOCH + randomSecondsAt seed i
  customer_id := 10000 + (mix seed 5 i : ℤ) % 89999
  category := CATEGORIES.getD (mix seed 6 i % 15) ""
  product_id := 100000 + (mix seed 7 i : ℤ) % 899999
  unit_price := unitPriceAt seed i
  quantity := quantityAt seed i
  discount := discountAt seed i
  subtotal := subtotalAt seed i
  tax_rate := taxRateAt seed i
  tax := taxAt seed i
  total := totalAt seed i
  payment_method := PAYMENT_METHODS.getD (mix seed 8 i % 7) ""
  region := REGIONS.getD (mix seed 9 i % 8) ""
  city := CITIES.getD (mix seed 10 i % 30) ""
  -- `p=[0.60, 0.10, 0.12, 0.08, 0.06, 0.04]` weights abstracted; support kept.
  status := STATUSES.getD (mix seed 11 i % 6) ""
  -- `p=[0.35, 0.65]`.
  is_member := mix seed 12 i % 100 < 35
  -- `rng.choice([np.nan, 1, 2, 3, 4, 5], p=[0.3, ...])`: index 0 is NaN.
  rating := if mix seed 13 i % 6 == 0 then none else some ((mix seed 13 i : ℤ) % 6)

/-- The sequence of generated rows for a non-negative row count. -/
def rowsOf (numRows : ℕ) (seed : ℤ) : List Row := (List.range numRows).map (rowAt seed)

/-- `generate_dataset(num_rows, seed=42)` (lines 66-111).  Every sampling call
has `size=num_rows`; with a negative `num_rows` the first such call
(`rng.integers(0, total_seconds, size=num_rows)`, line 75) raises numpy's
`ValueError` before any value is drawn, so no table is produced. -/
def generate_dataset (num_rows : ℤ) (seed : ℤ) : Except String (List Row) :=
  if num_rows < 0 then Except.error "ValueError: negative dimensions are not allowed"
  else Except.ok (rowsOf num_rows.toNat seed)

/-- The CLI arguments of `main()` (lines 114-118): `--rows` and `--output`. -/
structure CliArgs where
  rows : ℤ
  output : String
  deriving DecidableEq

/-- The DataFrame computed by `main()` (line 125): `generate_dataset(args.rows)`
passes no seed, so the default seed `42` always applies; `args.output` only
names the CSV destination and never reaches the generator. -/
def mainDataFrame (args : CliArgs) : Except String (List Row) :=
  generate_dataset args.rows 42

/-! ## `app.py`: filter engine, scalar metrics and summary views

`load_data` adds a derived calendar-date column `df["date"] =
df["timestamp"].dt.date`; over epoch seconds this is the day index. -/

/-- The derived `date` column (`app.py` line 27). -/
def Row.date (r : Row) : ℤ := r.timestamp / 86400

/-- The sidebar filter inputs: date range, category / region / status
selections (`app.py` lines 46-74, read at lines 158-164). -/
structure FilterSpec where
  startDate : ℤ
  endDate : ℤ
  categories : List String
  regions : List String
  statuses : List String
  deriving DecidableEq

/-- The boolean filter mask of one row (`app.py` lines 159-165). -/
def rowMask (s : FilterSpec) (r : Row) : Bool :=
  decide (s.startDate ≤ r.date) && decide (r.date ≤ s.endDate) &&
  decide (r.category ∈ s.categories) && decide (r.region ∈ s.regions) &&
  decide (r.status ∈ s.statuses)

/-- `filtered_df()` (`app.py` lines 156-166): build the boolean mask column,
then select the masked rows with `DF.loc[mask]` (order-preserving). -/
def filtered_df (df : List Row) (s : FilterSpec) : List Row :=
  let mask := df.map (rowMask s)
  (df.zip mask).filterMap (fun p => if p.2 then some p.1 else none)

/-- `n_transactions` (line 172): size of the filtered subset. -/
def n_transactions (df : List Row) (s : FilterSpec) : ℕ :=
  (filtered_df df s).length

/-- `total_revenue` (line 176): sum of `total` over the filtered subset. -/
def total_revenue (df : List Row) (s : FilterSpec) : ℚ :=
  ((filtered_df df s).map Row.total).sum

/-- `avg_order` (lines 180-182): mean of `total`, `0` on an empty subset. -/
def avg_order (df : List Row) (s : FilterSpec) : ℚ :=
  let d := filtered_df df s
  if 0 < d.length then (d.map Row.total).sum / d.length else 0

/-- `n_customers` (line 186): number of distinct `customer_id` values. -/
def n_customers (df : List Row) (s : FilterSpec) : ℕ :=
  ((filtered_df df s).map Row.customer_id).dedup.length

/-! Each view below takes the filtered subset as input.  `df.groupby(k)`
sorts the group keys ascending and aggregates each group;
`sort_values(c, ascending=False)` then reorders the group rows.  The
embedding sorts with `List.insertionSort`. -/

/-- A row of `daily_revenue_table` and `top_days_table`. -/
structure DayRow where
  date : ℤ
  transactions : ℕ
  revenue : ℚ
  deriving DecidableEq

/-- A row of `category_summary_table`. -/
structure CatRow where
  category : String
  transactions : ℕ
  revenue : ℚ
  avg_price : ℚ
  deriving DecidableEq

/-- A row of `region_table`. -/
structure RegRow where
  region : String
  transactions : ℕ
  revenue : ℚ
  avg_order : ℚ
  deriving DecidableEq

/-- A row of `payment_table`. -/
structure PayRow where
  payment_method : String
  transactions : ℕ
  revenue : ℚ
  deriving DecidableEq

/-- A row of `status_table`. -/
structure StatusRow where
  status : String
  count : ℕ
  revenue : ℚ
  pct : ℚ
  deriving DecidableEq

/-- Ascending group keys of `df.groupby(k)`: distinct key values, sorted. -/
def groupKeys (df : List Row) (k : Row → String) : List String :=
  List.insertionSort (fun a b => a ≤ b) ((df.map k).dedup)

/-- Ascending group keys for a date-valued grouping column. -/
def groupKeysD (df : List Row) : List ℤ :=
  List.insertionSort (fun a b => a ≤ b) ((df.map Row.date).dedup)

/-- `daily_revenue_table` (lines 205-218): group by date, count transactions
and sum `total`, sort date descending, keep the most recent 20. -/
def daily_revenue_table (df : List Row) : List DayRow :=
  if df.isEmpty then []
  else
    let daily := (groupKeysD df).map (fun d =>
      let g := df.filter (fun r => r.date == d)
      DayRow.mk d g.length ((g.map Row.total).sum))
    (List.insertionSort (fun a b => b.date ≤ a.date) daily).take 20

/-- `category_summary_table` (lines 221-238): group by category, count, sum
`total`, mean `unit_price`, sort revenue descending. -/
def category_summary_table (df : List Row) : List CatRow :=
  if df.isEmpty then []
  else
    let cat := (groupKeys df Row.category).map (fun c =>
      let g := df.filter (fun r => r.category == c)
      CatRow.mk c g.length ((g.map Row.total).sum)
        (((g.map Row.unit_price).sum) / g.length))
    List.insertionSort (fun a b => b.revenue ≤ a.revenue) cat

/-- `region_table` (lines 253-270): group by region, count, sum `total`,
mean `total`, sort revenue descending. -/
def region_table (df : List Row) : List RegRow :=
  if df.isEmpty then []
  else
    let reg := (groupKeys df Row.region).map (fun c =>
      let g := df.filter (fun r => r.region == c)
      RegRow.mk c g.length ((g.map Row.total).sum)
        (((g.map Row.total).sum) / g.length))
    List.insertionSort (fun a b => b.revenue ≤ a.revenue) reg

/-- `payment_table` (lines 273-285): group by payment method, count, sum
`total`, sort revenue descending. -/
def payment_table (df : List Row) : List PayRow :=
  if df.isEmpty then []
  else
    let pay := (groupKeys df Row.payment_method).map (fun c =>
      let g := df.filter (fun r => r.payment_method == c)
      PayRow.mk c g.length ((g.map Row.total).sum))
    List.insertionSort (fun a b => b.revenue ≤ a.revenue) pay

/-- `top_days_table` (lines 288-301): group by date, count, sum `total`,
sort revenue descending, keep the top 10. -/
def top_days_table (df : List Row) : List DayRow :=
  if df.isEmpty then []
  else
    let daily := (groupKeysD df).map (fun d =>
      let g := df.filter (fun r => r.date == d)
      DayRow.mk d g.length ((g.map Row.total).sum))
    (List.insertionSort (fun a b => b.revenue ≤ a.revenue) daily).take 10

/-- `status_table` (lines 304-318): group by status, count, sum `total`,
sort count descending, then add each status's percentage of the total count. -/
def status_table (df : List Row) : List StatusRow :=
  if df.isEmpty then []
  else
    let st := (groupKeys df Row.status).map (fun c =>
      let g := df.filter (fun r => r.status == c)
      (c, g.length, (g.map Row.total).sum))
    let st := List.insertionSort
      (fun a b : String × ℕ × ℚ => b.2.1 ≤ a.2.1) st
    let totalCount : ℕ := (st.map (fun t => t.2.1)).sum
    st.map (fun t => StatusRow.mk t.1 t.2.1 t.2.2 ((t.2.1 : ℚ) / totalCount * 100))

/-! ## Arithmetic facts about `round2` -/

lemma round_mono2 {x y : ℚ} (h : x ≤ y) : round x ≤ round y := by
  rw [round_eq, round_eq]
  exact Int.floor_le_floor (by linarith)

lemma round2_mono {x y : ℚ} (h : x ≤ y) : round2 x ≤ round2 y := by
  unfold round2
  have h1 : round (x * 100) ≤ round (y * 100) := round_mono2 (by linarith)
  have h2 : ((round (x * 100) : ℤ) : ℚ) ≤ ((round (y * 100) : ℤ) : ℚ) := by
    exact_mod_cast h1
  linarith

/-- `round2` fixes any whole number of cents. -/
lemma round2_cent (m : ℤ) : round2 ((m : ℚ) / 100) = (m : ℚ) / 100 := by
  unfold round2
  rw [show ((m : ℚ) / 100) * 100 = (m : ℚ) by ring, round_intCast]

/-- Adding a whole number of cents commutes with `round2`. -/
lemma round2_int_add (m : ℤ) (x : ℚ) :
    round2 ((m : ℚ) / 100 + x) = (m : ℚ) / 100 + round2 x := by
  unfold round2
  rw [show ((m : ℚ) / 100 + x) * 100 = (m : ℚ) + x * 100 by ring, round_int_add]
  push_cast
  ring

/-- Adding an already-rounded value commutes with `round2`. -/
lemma round2_round2_add (x y : ℚ) :
    round2 (round2 x + y) = round2 x + round2 y := by
  have h : round2 x = ((round (x * 100) : ℤ) : ℚ) / 100 := rfl
  rw [h, round2_int_add]

lemma round2_idem (x : ℚ) : round2 (round2 x) = round2 x := by
  have h : round2 x = ((round (x * 100) : ℤ) : ℚ) / 100 := rfl
  rw [h, round2_cent]

lemma round2_nonneg {x : ℚ} (h : 0 ≤ x) : 0 ≤ round2 x := by
  have h0 : round2 (0 : ℚ) = 0 := by
    unfold round2
    norm_num
  calc (0 : ℚ) = round2 0 := h0.symm
    _ ≤ round2 x := round2_mono h

/-! ## Structure of the generated rows -/

lemma mem_rowsOf {numRows : ℕ} {seed : ℤ} {r : Row} (h : r ∈ rowsOf numRows seed) :
    ∃ i, i < numRows ∧ r = rowAt seed i := by
  unfold rowsOf at h
  obtain ⟨i, hi, hr⟩ := List.mem_map.mp h
  exact ⟨i, List.mem_range.mp hi, hr.symm⟩

lemma generate_dataset_ok {numRows seed : ℤ} {rows : List Row}
    (h : generate_dataset numRows seed = Except.ok rows) :
    rows = rowsOf numRows.toNat seed := by
  unfold generate_dataset at h
  by_cases hneg : numRows < 0
  · simp [hneg] at h
  · simp [hneg] at h
    exact h.symm

/-- `total = subtotal + tax` exactly: both are whole numbers of cents, so the
final `np.round(subtotals + taxes, 2)` is the identity. -/
lemma totalAt_eq (seed : ℤ) (i : ℕ) :
    totalAt seed i = subtotalAt seed i + taxAt seed i := by
  unfold totalAt
  rw [show subtotalAt seed i =
        round2 (unitPriceAt seed i * (quantityAt seed i : ℚ) *
          (1 - discountAt seed i)) from rfl,
      round2_round2_add,
      show taxAt seed i = round2 (subtotalAt seed i * taxRateAt seed i) from rfl,
      round2_idem]

/-! ## Claims about the generator -/

/-- C1: every row of a table returned by `generate_dataset` satisfies the
stage-wise rounding invariants: `subtotal = round(unit_price * quantity *
(1 - discount), 2)`, `tax = round(subtotal * tax_rate, 2)` and
`total = round(subtotal + tax, 2)`. -/
theorem C1_rounding_invariants (numRows seed : ℤ) (rows : List Row)
    (hok : generate_dataset numRows seed = Except.ok rows) :
    ∀ r ∈ rows,
      r.subtotal = round2 (r.unit_price * (r.quantity : ℚ) * (1 - r.discount)) ∧
      r.tax = round2 (r.subtotal * r.tax_rate) ∧
      r.total = round2 (r.subtotal + r.tax) := by
  intro r hr
  rw [generate_dataset_ok hok] at hr
  obtain ⟨i, _, rfl⟩ := mem_rowsOf hr
  exact ⟨rfl, rfl, rfl⟩

theorem C1_witness :
    (rowAt 42 0).subtotal =
      round2 ((rowAt 42 0).unit_price * ((rowAt 42 0).quantity : ℚ) *
        (1 - (rowAt 42 0).discount)) ∧
    (rowAt 42 0).tax = round2 ((rowAt 42 0).subtotal * (rowAt 42 0).tax_rate) ∧
    (rowAt 42 0).total = round2 ((rowAt 42 0).subtotal + (rowAt 42 0).tax) :=
  C1_rounding_invariants 1 42 (rowsOf 1 42) rfl (rowAt 42 0) (by simp [rowsOf])

/-- C3: `generate_dataset` is a pure, deterministic function of the
`(row_count, seed)` pair — it is embedded as a function of exactly those two
arguments (the source seeds its own `np.random.default_rng(seed)` and reads no
other input), so two invocations agree identically. -/
theorem C3_determinism (numRows seed : ℤ) (_hpos : 0 < numRows) :
    generate_dataset numRows seed = generate_dataset numRows seed := rfl

theorem C3_witness : generate_dataset 2 42 = generate_dataset 2 42 :=
  C3_determinism 2 42 (by norm_num)

/-- C4 counterexample: the claim says every `row_count ≤ 0` is rejected with a
configuration error and no table is produced; but the source has no row-count
validation at all, and at `row_count = 0` every numpy sampling call accepts
`size=0`, so `generate_dataset(0)` succeeds and returns an empty table. -/
theorem C4_counterexample : generate_dataset 0 42 = Except.ok [] := rfl

/-- C4 amended: a negative `row_count` makes the first sampling call
(`rng.integers(..., size=num_rows)`) raise numpy's `ValueError` before any
value is drawn, so no table is produced; `row_count = 0` and every positive
`row_count` succeed with no runtime failure (returning a table of
`max row_count 0` rows). -/
theorem C4_amended (numRows seed : ℤ) :
    (numRows < 0 →
      generate_dataset numRows seed =
        Except.error "ValueError: negative dimensions are not allowed") ∧
    (0 ≤ numRows →
      generate_dataset numRows seed = Except.ok (rowsOf numRows.toNat seed)) := by
  constructor
  · intro h
    simp [generate_dataset, h]
  · intro h
    simp [generate_dataset, not_lt.mpr h]

theorem C4_amended_witness :
    generate_dataset (-1) 42 =
      Except.error "ValueError: negative dimensions are not allowed" ∧
    generate_dataset 2 42 = Except.ok (rowsOf 2 42) :=
  ⟨(C4_amended (-1) 42).1 (by norm_num), (C4_amended 2 42).2 (by norm_num)⟩

/-- C9: `main()` never passes a seed to `generate_dataset`, so the default
seed `42` always applies; for a fixed `--rows` value the produced table is
independent of every other CLI parameter (`--output` only names the file). -/
theorem C9_cli_seed_fixed :
    (∀ args : CliArgs, mainDataFrame args = generate_dataset args.rows 42) ∧
    (∀ a b : CliArgs, a.rows = b.rows → mainDataFrame a = mainDataFrame b) := by
  refine ⟨fun _ => rfl, fun a b h => ?_⟩
  unfold mainDataFrame
  rw [h]

theorem C9_witness :
    mainDataFrame ⟨3, "data/transactions.csv"⟩ = mainDataFrame ⟨3, "other.csv"⟩ :=
  C9_cli_seed_fixed.2 ⟨3, "data/transactions.csv"⟩ ⟨3, "other.csv"⟩ rfl

/-! ## Bounds on the drawn values -/

lemma expDrawAt_nonneg (seed : ℤ) (i : ℕ) : 0 ≤ expDrawAt seed i := by
  unfold expDrawAt
  positivity

lemma unitPriceAt_ge (seed : ℤ) (i : ℕ) : 99/100 ≤ unitPriceAt seed i := by
  unfold unitPriceAt
  have h1 : (99 : ℚ)/100 ≤ expDrawAt seed i + 99/100 := by
    have := expDrawAt_nonneg seed i
    linarith
  have h2 := round2_mono h1
  have h3 : round2 ((99 : ℚ)/100) = 99/100 := by
    have h := round2_cent 99
    push_cast at h
    exact h
  linarith

lemma quantityAt_bounds (seed : ℤ) (i : ℕ) :
    1 ≤ quantityAt seed i ∧ quantityAt seed i ≤ 20 := by
  unfold quantityAt
  have h1 := Int.emod_nonneg (mix seed 2 i : ℤ) (by norm_num : (20:ℤ) ≠ 0)
  have h2 := Int.emod_lt_of_pos (mix seed 2 i : ℤ) (by norm_num : (0:ℤ) < 20)
  omega

lemma discountAt_bounds (seed : ℤ) (i : ℕ) :
    0 ≤ discountAt seed i ∧ discountAt seed i ≤ 25/100 := by
  unfold discountAt
  obtain ⟨k, hk8, hkeq⟩ : ∃ k, k < 8 ∧ mix seed 3 i % 8 = k :=
    ⟨_, Nat.mod_lt _ (by norm_num), rfl⟩
  rw [hkeq]
  interval_cases k <;>
    constructor <;>
    norm_num [DISCOUNT_CHOICES, round2, round_eq]

lemma taxRateAt_bounds (seed : ℤ) (i : ℕ) :
    0 ≤ taxRateAt seed i ∧ taxRateAt seed i ≤ 10/100 := by
  unfold taxRateAt
  obtain ⟨k, hk8, hkeq⟩ : ∃ k, k < 8 ∧ mix seed 4 i % 8 = k :=
    ⟨_, Nat.mod_lt _ (by norm_num), rfl⟩
  rw [hkeq]
  interval_cases k <;>
    constructor <;>
    norm_num [TAX_RATE_CHOICES]

lemma subtotalAt_nonneg (seed : ℤ) (i : ℕ) : 0 ≤ subtotalAt seed i := by
  unfold subtotalAt
  apply round2_nonneg
  have hu : (0 : ℚ) ≤ unitPriceAt seed i :=
    le_trans (by norm_num) (unitPriceAt_ge seed i)
  have hq : (0 : ℚ) ≤ (quantityAt seed i : ℚ) := by
    have h := (quantityAt_bounds seed i).1
    have : (1 : ℚ) ≤ (quantityAt seed i : ℚ) := by exact_mod_cast h
    linarith
  have hd : (0 : ℚ) ≤ 1 - discountAt seed i := by
    have := (discountAt_bounds seed i).2
    linarith
  exact mul_nonneg (mul_nonneg hu hq) hd

lemma taxAt_nonneg (seed : ℤ) (i : ℕ) : 0 ≤ taxAt seed i := by
  unfold taxAt
  exact round2_nonneg (mul_nonneg (subtotalAt_nonneg seed i) (taxRateAt_bounds seed i).1)

/-! ## Claims C8 and C10 -/

/-- C8: for every generated row, `total` is within one cent of
`round(round(unit_price*quantity*(1-discount),2) * (1+tax_rate), 2)`; in exact
cent arithmetic the two agree exactly, because `subtotal` and `tax` are whole
numbers of cents and rounding commutes with adding a whole number of cents. -/
theorem C8_total_single_rounding (numRows seed : ℤ) (rows : List Row)
    (hok : generate_dataset numRows seed = Except.ok rows) :
    ∀ r ∈ rows,
      |r.total - round2 (round2 (r.unit_price * (r.quantity : ℚ) * (1 - r.discount))
        * (1 + r.tax_rate))| ≤ 1/100 := by
  intro r hr
  rw [generate_dataset_ok hok] at hr
  obtain ⟨i, _, rfl⟩ := mem_rowsOf hr
  show |totalAt seed i -
    round2 (subtotalAt seed i * (1 + taxRateAt seed i))| ≤ 1/100
  have key : round2 (subtotalAt seed i * (1 + taxRateAt seed i))
      = subtotalAt seed i + taxAt seed i := by
    have hs : subtotalAt seed i =
        round2 (unitPriceAt seed i * (quantityAt seed i : ℚ) *
          (1 - discountAt seed i)) := rfl
    have ht : taxAt seed i = round2 (subtotalAt seed i * taxRateAt seed i) := rfl
    have hexpand : subtotalAt seed i * (1 + taxRateAt seed i)
        = subtotalAt seed i + subtotalAt seed i * taxRateAt seed i := by ring
    rw [hexpand, hs, round2_round2_add, ← hs, ← ht]
  rw [totalAt_eq, key]
  norm_num

theorem C8_witness :
    |(rowAt 42 0).total -
      round2 (round2 ((rowAt 42 0).unit_price * ((rowAt 42 0).quantity : ℚ) *
        (1 - (rowAt 42 0).discount)) * (1 + (rowAt 42 0).tax_rate))| ≤ 1/100 :=
  C8_total_single_rounding 1 42 (rowsOf 1 42) rfl (rowAt 42 0) (by simp [rowsOf])

/-- C10: every generated row has `unit_price ≥ 0.99` (the exponential deviate
is non-negative and is shifted by `+0.99` before rounding), and consequently
`subtotal ≥ 0`, `tax ≥ 0` and `total ≥ subtotal`. -/
theorem C10_row_bounds (numRows seed : ℤ) (rows : List Row)
    (hok : generate_dataset numRows seed = Except.ok rows) :
    ∀ r ∈ rows,
      99/100 ≤ r.unit_price ∧ 0 ≤ r.subtotal ∧ 0 ≤ r.tax ∧ r.subtotal ≤ r.total := by
  intro r hr
  rw [generate_dataset_ok hok] at hr
  obtain ⟨i, _, rfl⟩ := mem_rowsOf hr
  refine ⟨unitPriceAt_ge seed i, subtotalAt_nonneg seed i, taxAt_nonneg seed i, ?_⟩
  show subtotalAt seed i ≤ totalAt seed i
  rw [totalAt_eq]
  have := taxAt_nonneg seed i
  linarith

theorem C10_witness :
    99/100 ≤ (rowAt 42 0).unit_price ∧ 0 ≤ (rowAt 42 0).subtotal ∧
    0 ≤ (rowAt 42 0).tax ∧ (rowAt 42 0).subtotal ≤ (rowAt 42 0).total :=
  C10_row_bounds 1 42 (rowsOf 1 42) rfl (rowAt 42 0) (by simp [rowsOf])

/-! ## Claims about the filter engine -/

/-- The FilterSpecification contract, stated in the spec's own words: date
within `[start, end]` inclusive on both ends, and category, region and status
each in the corresponding selected set (conjunction of all four predicates). -/
def specMatchesRow (s : FilterSpec) (r : Row) : Prop :=
  s.startDate ≤ r.date ∧ r.date ≤ s.endDate ∧
  r.category ∈ s.categories ∧ r.region ∈ s.regions ∧ r.status ∈ s.statuses

instance (s : FilterSpec) (r : Row) : Decidable (specMatchesRow s r) := by
  unfold specMatchesRow
  infer_instance

lemma rowMask_iff (s : FilterSpec) (r : Row) :
    rowMask s r = true ↔ specMatchesRow s r := by
  unfold rowMask specMatchesRow
  simp [Bool.and_eq_true, and_assoc]

/-- Selecting by the boolean mask column is list filtering. -/
lemma filtered_df_eq_filter (df : List Row) (s : FilterSpec) :
    filtered_df df s = df.filter (rowMask s) := by
  unfold filtered_df
  induction df with
  | nil => rfl
  | cons a l ih =>
      simp only [List.map_cons, List.zip_cons_cons, List.filterMap_cons,
        List.filter_cons]
      cases h : rowMask s a <;> simp [h, ih]

/-- C2: the filter returns exactly the rows satisfying all four predicates
conjunctively (date within the inclusive range, and category, region, status
each in its selected set), in the base table's order (a stable filter). -/
theorem C2_filter_contract (df : List Row) (s : FilterSpec) :
    filtered_df df s = df.filter (fun r => decide (specMatchesRow s r)) ∧
    (filtered_df df s).Sublist df ∧
    ∀ r : Row, r ∈ filtered_df df s ↔ r ∈ df ∧ specMatchesRow s r := by
  have heq : filtered_df df s = df.filter (fun r => decide (specMatchesRow s r)) := by
    rw [filtered_df_eq_filter]
    apply List.filter_congr
    intro r _
    cases hb : rowMask s r with
    | false =>
        have hn : ¬ specMatchesRow s r := fun hp => by
          have := (rowMask_iff s r).mpr hp
          rw [hb] at this
          exact Bool.false_ne_true this
        simp [hn]
    | true =>
        have hp : specMatchesRow s r := (rowMask_iff s r).mp hb
        simp [hp]
  refine ⟨heq, ?_, ?_⟩
  · rw [heq]
    exact List.filter_sublist df
  · intro r
    rw [heq, List.mem_filter]
    simp

/-! ## Claim C5: empty filtered subset degrades gracefully -/

/-- C5: whenever the filtered subset is empty (e.g. because a selection set is
empty), all six summary views are zero-row tables, every scalar metric is zero
(`avg_order` guards the division, so there is no division by zero), and no
failure path exists: every function below is total. -/
theorem C5_empty_subset (df : List Row) (s : FilterSpec)
    (h : filtered_df df s = []) :
    daily_revenue_table (filtered_df df s) = [] ∧
    category_summary_table (filtered_df df s) = [] ∧
    region_table (filtered_df df s) = [] ∧
    payment_table (filtered_df df s) = [] ∧
    top_days_table (filtered_df df s) = [] ∧
    status_table (filtered_df df s) = [] ∧
    n_transactions df s = 0 ∧
    total_revenue df s = 0 ∧
    avg_order df s = 0 ∧
    n_customers df s = 0 := by
  rw [h]
  refine ⟨rfl, rfl, rfl, rfl, rfl, rfl, ?_, ?_, ?_, ?_⟩ <;>
    simp [n_transactions, total_revenue, avg_order, n_customers, h]

/-- A sample base-table row for concrete witnesses. -/
def demoRow : Row where
  transaction_id := 1
  timestamp := 1704067200
  customer_id := 10000
  category := "Books"
  product_id := 100000
  unit_price := 1
  quantity := 1
  discount := 0
  subtotal := 1
  tax_rate := 0
  tax := 0
  total := 1
  payment_method := "PayPal"
  region := "Midwest"
  city := "Chicago"
  status := "Completed"
  is_member := false
  rating := none

/-- A filter specification with an empty category selection. -/
def demoSpecNoCats : FilterSpec where
  startDate := 0
  endDate := 100000
  categories := []
  regions := ["Midwest"]
  statuses := ["Completed"]

theorem C5_witness :
    daily_revenue_table (filtered_df [demoRow] demoSpecNoCats) = [] ∧
    category_summary_table (filtered_df [demoRow] demoSpecNoCats) = [] ∧
    region_table (filtered_df [demoRow] demoSpecNoCats) = [] ∧
    payment_table (filtered_df [demoRow] demoSpecNoCats) = [] ∧
    top_days_table (filtered_df [demoRow] demoSpecNoCats) = [] ∧
    status_table (filtered_df [demoRow] demoSpecNoCats) = [] ∧
    n_transactions [demoRow] demoSpecNoCats = 0 ∧
    total_revenue [demoRow] demoSpecNoCats = 0 ∧
    avg_order [demoRow] demoSpecNoCats = 0 ∧
    n_customers [demoRow] demoSpecNoCats = 0 :=
  C5_empty_subset [demoRow] demoSpecNoCats
    (by simp [filtered_df, rowMask, demoRow, demoSpecNoCats])

/-! ## Claim C6: cross-view revenue consistency

Summing one group's revenue per distinct key and adding the results recovers
the whole subset's revenue: grouping partitions the rows. -/

lemma sum_map_ite_mem {β : Type} [DecidableEq β] (x : β) (c : ℚ) :
    ∀ (ks : List β) (f : β → ℚ), ks.Nodup → x ∈ ks →
      (ks.map fun g => if x = g then c + f g else f g).sum = c + (ks.map f).sum
  | [], _, _, hx => absurd hx (List.not_mem_nil x)
  | g :: ks, f, hnd, hx => by
      rcases List.nodup_cons.mp hnd with ⟨hg, hnd'⟩
      by_cases hxg : x = g
      · subst hxg
        have htail : (ks.map fun g' => if x = g' then c + f g' else f g') = ks.map f := by
          apply List.map_congr_left
          intro g' hg'
          have : x ≠ g' := fun he => hg (he ▸ hg')
          simp [this]
        rw [List.map_cons, if_pos rfl, htail, List.sum_cons,
          List.map_cons, List.sum_cons]
        ring
      · have hx' : x ∈ ks := by
          rcases List.mem_cons.mp hx with h | h
          · exact absurd h hxg
          · exact h
        simp only [List.map_cons, if_neg hxg, List.sum_cons,
          sum_map_ite_mem x c ks f hnd' hx']
        ring

lemma sum_over_groups {β : Type} [DecidableEq β] [BEq β] [LawfulBEq β]
    (k : Row → β) (v : Row → ℚ) :
    ∀ (l : List Row) (ks : List β), ks.Nodup → (∀ r ∈ l, k r ∈ ks) →
      (ks.map fun g => ((l.filter fun r => k r == g).map v).sum).sum
        = (l.map v).sum
  | [], ks, _, _ => by simp
  | a :: l, ks, hnd, hcov => by
      have hterm : (ks.map fun g => (((a :: l).filter fun r => k r == g).map v).sum)
          = ks.map fun g => if k a = g then
              v a + ((l.filter fun r => k r == g).map v).sum
            else ((l.filter fun r => k r == g).map v).sum := by
        apply List.map_congr_left
        intro g _
        by_cases hag : k a = g
        · simp [List.filter_cons, hag]
        · have : (k a == g) = false := beq_eq_false_iff_ne.mpr hag
          simp [List.filter_cons, this, hag]
      rw [hterm,
        sum_map_ite_mem (k a) (v a) ks _ hnd (hcov a (List.mem_cons_self a l)),
        sum_over_groups k v l ks hnd
          (fun r hr => hcov r (List.mem_cons_of_mem a hr))]
      simp

lemma groupKeys_nodup (df : List Row) (k : Row → String) : (groupKeys df k).Nodup :=
  (List.perm_insertionSort _ _).nodup_iff.mpr (List.nodup_dedup _)

lemma mem_groupKeys {df : List Row} {k : Row → String} {r : Row} (hr : r ∈ df) :
    k r ∈ groupKeys df k :=
  (List.perm_insertionSort _ _).mem_iff.mpr
    (List.mem_dedup.mpr (List.mem_map_of_mem k hr))

/-- The revenue column of the category summary sums to the subset's revenue. -/
lemma category_revenue_sum (df : List Row) :
    ((category_summary_table df).map CatRow.revenue).sum = (df.map Row.total).sum := by
  by_cases hdf : df.isEmpty
  · rw [List.isEmpty_iff.mp hdf]
    rfl
  · unfold category_summary_table
    rw [if_neg (by simp [hdf])]
    rw [((List.perm_insertionSort _ _).map CatRow.revenue).sum_eq, List.map_map]
    have : (CatRow.revenue ∘ fun c =>
        CatRow.mk c (df.filter (fun r => r.category == c)).length
          (((df.filter (fun r => r.category == c)).map Row.total).sum)
          ((((df.filter (fun r => r.category == c)).map Row.unit_price).sum) /
            (df.filter (fun r => r.category == c)).length))
        = fun c => ((df.filter (fun r => r.category == c)).map Row.total).sum := rfl
    rw [this]
    exact sum_over_groups Row.category Row.total df (groupKeys df Row.category)
      (groupKeys_nodup df Row.category) (fun r hr => mem_groupKeys hr)

/-- The revenue column of the region summary sums to the subset's revenue. -/
lemma region_revenue_sum (df : List Row) :
    ((region_table df).map RegRow.revenue).sum = (df.map Row.total).sum := by
  by_cases hdf : df.isEmpty
  · rw [List.isEmpty_iff.mp hdf]
    rfl
  · unfold region_table
    rw [if_neg (by simp [hdf])]
    rw [((List.perm_insertionSort _ _).map RegRow.revenue).sum_eq, List.map_map]
    have : (RegRow.revenue ∘ fun c =>
        RegRow.mk c (df.filter (fun r => r.region == c)).length
          (((df.filter (fun r => r.region == c)).map Row.total).sum)
          ((((df.filter (fun r => r.region == c)).map Row.total).sum) /
            (df.filter (fun r => r.region == c)).length))
        = fun c => ((df.filter (fun r => r.region == c)).map Row.total).sum := rfl
    rw [this]
    exact sum_over_groups Row.region Row.total df (groupKeys df Row.region)
      (groupKeys_nodup df Row.region) (fun r hr => mem_groupKeys hr)

/-- C6: for every base table and filter specification, the category summary's
revenue column and the region summary's revenue column both sum to the
`total_revenue` scalar of the same filtered subset, hence to each other. -/
theorem C6_cross_view_consistency (df : List Row) (s : FilterSpec) :
    ((category_summary_table (filtered_df df s)).map CatRow.revenue).sum
      = ((region_table (filtered_df df s)).map RegRow.revenue).sum ∧
    ((category_summary_table (filtered_df df s)).map CatRow.revenue).sum
      = total_revenue df s ∧
    ((region_table (filtered_df df s)).map RegRow.revenue).sum
      = total_revenue df s := by
  have hc := category_revenue_sum (filtered_df df s)
  have hr := region_revenue_sum (filtered_df df s)
  have ht : total_revenue df s = ((filtered_df df s).map Row.total).sum := rfl
  exact ⟨by rw [hc, hr], by rw [hc, ht], by rw [hr, ht]⟩
